import Mathlib

/-!
# Verification of the clembench-d TextArena integration layer

A shallow embedding, in Lean 4, of the turn-orchestration and
observation-aggregation engine of the `ta_integration` package:

* `ClemObservationWrapper._convert_obs_to_context` and
  `ClemObservationWrapper.observation` (src/ta_integration/master.py),
* the round-boundary check of `TextArenaGameMaster.play`
  (src/ta_integration/master.py) and `TextArenaGameMaster._start_next_round`
  (src/ta_integration/ta_master.py),
* `TextArenaGameMaster._check_move_validity` (src/ta_integration/ta_master.py),
* `TextArenaGameMaster._apply_variable_overrides` (src/ta_integration/master.py),
* the metric decoders `SinglePlayerMaster.prepare_metrics`,
  `WordChainsMaster.log_success`, `TwoPlayerMaster.log_success`
  (src/ta_integration/submasters.py),
* `TextArenaScorer.compute_episode_scores` (src/ta_integration/master.py).

Python dictionaries become functions into `Option`, Python `None` becomes
`Option.none`, floats become `ℚ` with `Option ℚ` where a value can be
`np.nan`, and mutation becomes explicit state passing.
-/

/-! ## External string constants

The metric key names come from `clemcore.clemgame.metrics` and the standard
preamble from `textarena.agents.basic_agents.STANDARD_GAME_PROMPT`; both are
fixed opaque string constants of external collaborators.  Only their identity
(and the pairwise distinctness of the metric keys) matters to any claim. -/

def METRIC_ABORTED : String := "Aborted"

def METRIC_SUCCESS : String := "Success"

def METRIC_LOSE : String := "Lose"

def BENCH_SCORE : String := "Main Score"

def STANDARD_GAME_PROMPT : String :=
  "You are a competitive game player. Make sure you read the game instructions carefully, and always follow the required format."

/-- The fixed marker substring scanned for by the invalid-move detection
(src/ta_integration/master.py line 108, ta_master.py line 162). -/
def invalidMoveMarker : String := "attempted an invalid move"

/-! ## Python `in` on strings

`"needle" in hay` for Python strings is a substring test; we model it by a
plain recursive scan over the character lists. -/

/-- Does `hay` start with `needle`? -/
def hasPre : List Char → List Char → Bool
  | [], _ => true
  | _ :: _, [] => false
  | c :: cs, d :: ds => c == d && hasPre cs ds

/-- Does `needle` occur contiguously in `hay`? -/
def listContainsSub (needle : List Char) : List Char → Bool
  | [] => hasPre needle []
  | d :: ds => hasPre needle (d :: ds) || listContainsSub needle ds

/-- Python's `needle in hay` on strings. -/
def strContainsSub (hay needle : String) : Bool :=
  listContainsSub needle.toList hay.toList

/-- `"attempted an invalid move" in text` -/
def containsMarker (text : String) : Bool :=
  strContainsSub text invalidMoveMarker

/-! ## Observation fragments

TextArena observations are tuples `(sender_id, message, observation_type)`;
the GM / system sender id is `-1`.  `ObservationType` is an enum of the
external `textarena.core`; only `PROMPT` is mentioned by the integration
code, every other member is collapsed into `OTHER`. -/

inductive ObservationType where
  | PROMPT
  | OTHER
deriving DecidableEq, Repr

/-- One observation tuple `(sender_id, message, observation_type)`. -/
structure Frag where
  sender : Int
  text : String
  otype : ObservationType
deriving DecidableEq, Repr

/-- A context dict `{'role': ..., 'content': ...}` as returned by
`_convert_obs_to_context`. -/
structure Context where
  role : String
  content : String
deriving DecidableEq, Repr

/-! ## ClemObservationWrapper (src/ta_integration/master.py lines 48-115)

State touched by the wrapper: its own `temp_observations` dict, the
game master's `request_violation` flag, the recorder's request-violation
tally (`count_request_violation`), the environment's `role_mapping`, and
each player's `_is_initial_call` flag (a `clemcore` `Player` attribute,
true until the player has been called with its first context). -/

structure WrapperState where
  /-- `self.temp_observations`: absent key modelled as `none`. -/
  temp : Int → Option (List Frag)
  /-- `self.game_master.players_by_id[player_id]._is_initial_call` -/
  isInitial : Int → Bool
  /-- `self.game_master.request_violation` -/
  requestViolation : Bool
  /-- how often `game_recorder.count_request_violation()` has been called -/
  violations : Nat
  /-- `self.env.state.role_mapping` -/
  roleMapping : Int → Option String

/-- `self.env.state.role_mapping.get(sender_id, f"Player {sender_id}")`
(master.py line 74). -/
def senderName (rm : Int → Option String) (sid : Int) : String :=
  (rm sid).getD ("Player " ++ toString sid)

/-- The bracketed-sender line `f"\n[{sender_name}] {message}"` rendered for
one fragment (master.py line 75). -/
def fragLine (rm : Int → Option String) (f : Frag) : String :=
  "\n[" ++ senderName rm f.sender ++ "] " ++ f.text

/-- `ClemObservationWrapper._convert_obs_to_context` (master.py lines 59-82):
builds the content string (preamble on the player's initial call, then one
bracketed-sender line per buffered fragment whose sender is not the player
itself), empties `temp_observations[player_id]`, and returns the
`{'role': 'user', 'content': content}` dict. -/
def convert_obs_to_context (s : WrapperState) (pid : Int) : Context × WrapperState :=
  let content := if s.isInitial pid then STANDARD_GAME_PROMPT ++ "\n\n" else ""
  let content :=
    match s.temp pid with
    | some frags =>
        frags.foldl
          (fun acc f =>
            if f.sender ≠ pid then
              acc ++ "\n[" ++ senderName s.roleMapping f.sender ++ "] " ++ f.text
            else acc)
          content
    | none => content
  (⟨"user", content⟩,
   { s with temp := fun q => if q = pid then some [] else s.temp q })

/-- The argument of `ClemObservationWrapper.observation`: Python `None`,
a bare string, or a list of observation tuples. -/
inductive ObsArg where
  | noObs
  | strObs (t : String)
  | listObs (l : List Frag)

/-- `ClemObservationWrapper.observation` (master.py lines 84-115): resets
`request_violation`, appends the new observations to the player's buffer
(a bare string as `(-1, text, PROMPT)`, a list by extension in order,
raising the violation flag and counter when the last incoming tuple's
message contains the invalid-move marker), and returns the merged context.

Python would raise `IndexError` on `observation[-1]` for an empty incoming
list; the environment never sends one, and the model treats that vacuous
case as no detection. -/
def observation (s : WrapperState) (pid : Int) (obs : ObsArg) : Context × WrapperState :=
  let s := { s with requestViolation := false }
  match obs with
  | .noObs => convert_obs_to_context s pid
  | .strObs t =>
      let cur := (s.temp pid).getD []
      let s := { s with
        temp := fun q => if q = pid then some (cur ++ [⟨-1, t, .PROMPT⟩]) else s.temp q }
      convert_obs_to_context s pid
  | .listObs l =>
      let cur := (s.temp pid).getD []
      let s :=
        if (l.getLast?.map fun f => containsMarker f.text).getD false then
          { s with requestViolation := true, violations := s.violations + 1 }
        else s
      let s := { s with
        temp := fun q => if q = pid then some (cur ++ l) else s.temp q }
      convert_obs_to_context s pid

/-- One observation exchange of the play loop: the wrapper produces the
context and the player is called with it, which clears the player's
`_is_initial_call` flag (`clemcore` `Player.__call__`; in
`TextArenaGameMaster.play`, master.py lines 215-221, every produced context
is handed to its player). -/
def systemStep (s : WrapperState) (pid : Int) (obs : ObsArg) : Context × WrapperState :=
  let (c, s') := observation s pid obs
  (c, { s' with isInitial := fun q => if q = pid then false else s'.isInitial q })

/-- The wrapper's state at construction time: `temp_observations = {}`
(master.py line 56), every player still awaiting its initial call, no
violation recorded. -/
def initWrapper (rm : Int → Option String) : WrapperState :=
  { temp := fun _ => none
    isInitial := fun _ => true
    requestViolation := false
    violations := 0
    roleMapping := rm }

/-- Run a sequence of observation exchanges `(player_id, observation)`. -/
def runTrace (s : WrapperState) (ops : List (Int × ObsArg)) : WrapperState :=
  ops.foldl (fun st op => (systemStep st op.1 op.2).2) s

/-! ## Round bookkeeping (src/ta_integration/master.py lines 209-233,
src/ta_integration/ta_master.py lines 143-151)

The play loop keeps a `played_in_turn` set of TextArena player ids (an id is
added when its player perceives a context), the shared `request_violation`
flag, and notifies the logging collaborator of round advances via
`log_next_round`.  `players_by_id` maps `-1` to the GM and each non-GM
TextArena id to its player. -/

structure RoundState where
  /-- `played_in_turn` -/
  playedInTurn : Finset Int
  /-- `self.request_violation` -/
  requestViolation : Bool
  /-- how often `log_next_round()` has been emitted -/
  nextRoundLogs : Nat
deriving DecidableEq

/-- The round-boundary check run when the environment reports the episode
not done (master.py lines 226-231; identical condition in
`_start_next_round`/`_prepare_next_round`, ta_master.py lines 143-151):
`if len(played_in_turn) == len(self.players_by_id) - 1 and not
self.request_violation:` clear the set and `log_next_round()`.
`playersById` is the key set of `players_by_id` (the GM id `-1` plus the
non-GM ids). -/
def roundBoundaryCheck (playersById : Finset Int) (s : RoundState) : RoundState :=
  if s.playedInTurn.card = playersById.card - 1 ∧ s.requestViolation = false then
    { s with playedInTurn := ∅, nextRoundLogs := s.nextRoundLogs + 1 }
  else s

/-! ## Invalid-move detection (src/ta_integration/ta_master.py lines 129-165)

`TextArenaGameMaster.step` resets `request_violation`, steps the
environment, and re-derives the flag with `_check_move_validity`, which
scans only the observations appended to `env.state.observations[player_id]`
past the per-player high-water mark `checked_observations[player_id]`. -/

structure MasterState where
  /-- `self.env.state.observations` -/
  observations : Int → List Frag
  /-- `self.checked_observations` -/
  checked : Int → Nat
  /-- `self.request_violation` -/
  requestViolation : Bool
  /-- how often `count_request_violation()` has been called -/
  violations : Nat

/-- `TextArenaGameMaster._check_move_validity` (ta_master.py lines 153-165):
takes the observations past the high-water mark, bumps the mark to the full
length, and returns `True` (counting one request violation) as soon as one
new observation's message contains the invalid-move marker. -/
def check_move_validity (s : MasterState) (pid : Int) : Bool × MasterState :=
  let obs := s.observations pid
  let lastObservations := obs.drop (s.checked pid)
  let s := { s with checked := fun q => if q = pid then obs.length else s.checked q }
  match lastObservations.find? (fun f => containsMarker f.text) with
  | some _ => (true, { s with violations := s.violations + 1 })
  | none => (false, s)

/-- The `request_violation` handling of `TextArenaGameMaster.step`
(ta_master.py lines 129-132): reset the flag to `False` at the start of the
turn, then set it to the result of `_check_move_validity` (`s` is the state
after the environment's own `step` has appended its observations). -/
def stepViolationUpdate (s : MasterState) (pid : Int) : MasterState :=
  let s0 := { s with requestViolation := false }
  let r := check_move_validity s0 pid
  { r.2 with requestViolation := r.1 }

/-! ## Metric decoders (src/ta_integration/submasters.py, ta_master.py)

A metric vector `{aborted, success, lose, bench_score}`; `np.nan` is
modelled as `none`.  Rewards are modelled as rationals. -/

structure Metrics where
  aborted : ℚ
  success : ℚ
  lose : ℚ
  benchScore : Option ℚ
deriving DecidableEq, Repr

/-- `TextArenaGameMaster._init_metrics` (ta_master.py lines 211-220), the
default metric values the single-player decoder starts from (the parent
call `super().prepare_metrics()` in submasters.py line 85 resolves to these
defaults: `{ABORTED: 0, SUCCESS: 0, LOSE: 0, BENCH_SCORE: np.nan}`). -/
def init_metrics : Metrics :=
  { aborted := 0, success := 0, lose := 0, benchScore := none }

/-- Python truthiness of the optional numeric reward: `None` and `0` are
falsy. -/
def pyTruthy (x : Option ℚ) : Bool :=
  match x with
  | none => false
  | some r => r != 0

/-- `SinglePlayerMaster.prepare_metrics` (submasters.py lines 81-92): start
from the defaults; `if numeric_reward:` (truthiness test), then
`numeric_reward == -1` sets aborted and lose, `elif numeric_reward == 1`
sets success; no branch touches the bench score. -/
def prepare_metrics (numeric_reward : Option ℚ := none) : Metrics :=
  let metrics := init_metrics
  if pyTruthy numeric_reward then
    match numeric_reward with
    | some r =>
        if r = -1 then { metrics with aborted := 1, lose := 1 }
        else if r = 1 then { metrics with success := 1 }
        else metrics
    | none => metrics
  else metrics

/-- `WordChainsMaster.log_success` (submasters.py lines 55-68) as the list
of `(metric key, value)` pairs it logs, from the start-word length captured
at setup and the end-word length captured at termination.  The numeric
difference decides the branch; no bench score is ever logged. -/
def word_chains_log_success (startWordLength endWordLength : Nat) : List (String × ℚ) :=
  let wordLengthDiff : Int := (endWordLength : Int) - (startWordLength : Int)
  if wordLengthDiff = 0 then
    [(METRIC_ABORTED, 1), (METRIC_SUCCESS, 0), (METRIC_LOSE, 1)]
  else
    [(METRIC_ABORTED, 0), (METRIC_SUCCESS, 1), (METRIC_LOSE, 0)]

/-- `TwoPlayerMaster.log_success` (submasters.py lines 129-139) as the list
of `(metric key, value)` pairs it logs, from the `last_move_invalid`
boolean supplied by the orchestrator.  The raw rewards are stored in
`final_keys` only; no bench score is logged. -/
def two_player_log_success (last_move_invalid : Bool) : List (String × ℚ) :=
  if last_move_invalid then
    [(METRIC_ABORTED, 1), (METRIC_SUCCESS, 0), (METRIC_LOSE, 1)]
  else
    [(METRIC_ABORTED, 0), (METRIC_SUCCESS, 1), (METRIC_LOSE, 0)]

/-! ## TextArenaScorer (src/ta_integration/master.py lines 279-290) -/

/-- `TextArenaScorer.compute_episode_scores`: reads the four recorded
values out of `episode_interactions` with default `0`, replaces the bench
score by `np.nan` when the recorded aborted value is truthy (nonzero), and
logs all four episode scores.  Output values are `Option ℚ` with `none`
for `np.nan`. -/
def compute_episode_scores (episode_interactions : String → Option ℚ) :
    List (String × Option ℚ) :=
  let bench_score := (episode_interactions BENCH_SCORE).getD 0
  let success := (episode_interactions METRIC_SUCCESS).getD 0
  let aborted := (episode_interactions METRIC_ABORTED).getD 0
  let lose := (episode_interactions METRIC_LOSE).getD 0
  (if aborted ≠ 0 then [(BENCH_SCORE, (none : Option ℚ))]
   else [(BENCH_SCORE, some bench_score)])
    ++ [(METRIC_SUCCESS, some success), (METRIC_ABORTED, some aborted),
        (METRIC_LOSE, some lose)]

/-! ## Attribute override hook (src/ta_integration/master.py lines 158-192)

The Python object graph reachable from the game master by attribute lookup
is modelled as a finite tree: attribute dictionaries at inner nodes, opaque
non-object values at the leaves.  `eval` of a lambda expression and its
application are collapsed into one opaque evaluation function. -/

inductive PyObj where
  /-- a value without readable attributes -/
  | leaf (tag : Nat)
  /-- an object with an attribute dictionary -/
  | node (attrs : List (String × PyObj))

/-- `getattr(obj, name)`: `none` models the raised `AttributeError`. -/
def pyGetattr : PyObj → String → Option PyObj
  | .leaf _, _ => none
  | .node attrs, name => attrs.lookup name

/-- Replace (or add) one attribute in an attribute dictionary. -/
def setAssoc (attrs : List (String × PyObj)) (name : String) (v : PyObj) :
    List (String × PyObj) :=
  match attrs with
  | [] => [(name, v)]
  | (k, w) :: rest =>
      if k = name then (k, v) :: rest else (k, w) :: setAssoc rest name v

/-- `setattr(obj, name, v)`: fails on a leaf value. -/
def pySetattr : PyObj → String → PyObj → Option PyObj
  | .leaf _, _, _ => none
  | .node attrs, name, v => some (.node (setAssoc attrs name v))

/-- Navigate a chain of attribute lookups (`for part in path_parts[:-1]:
current_obj = getattr(current_obj, part)`). -/
def navigatePath (root : PyObj) (parts : List String) : Option PyObj :=
  parts.foldlM pyGetattr root

/-- In-place `setattr` on the object reached by `parts`, seen from the
root of the (tree-shaped, unaliased) object graph. -/
def updateAtPath (root : PyObj) (parts : List String) (attr : String) (v : PyObj) :
    Option PyObj :=
  match parts with
  | [] => pySetattr root attr v
  | p :: rest =>
      match pyGetattr root p with
      | none => none
      | some child =>
          match updateAtPath child rest attr v with
          | none => none
          | some child' => pySetattr root p child'

/-- The caught exceptions of `_apply_variable_overrides`'s try block. -/
inductive OvError where
  /-- `AttributeError` while resolving a path segment or the final attribute -/
  | pathError (part : String)
  /-- the raised `ValueError: Unsupported expression format` -/
  | unsupportedExpr (expr : String)
  /-- `eval(expression)` or the lambda's application raised -/
  | evalError (expr : String)
deriving DecidableEq, Repr

/-- `variable_path.split('.')`, written as a structural recursion over the
character list (Python's `str.split` with a one-character separator). -/
def splitDotAux : List Char → List Char → List (List Char)
  | [], acc => [acc.reverse]
  | c :: cs, acc =>
      if c = '.' then acc.reverse :: splitDotAux cs []
      else splitDotAux cs (c :: acc)

/-- `variable_path.split('.')` (master.py line 169). -/
def splitDot (s : String) : List String :=
  (splitDotAux s.toList []).map String.mk

/-- The try-block body of `_apply_variable_overrides` for one single
override (master.py lines 166-188): split the dotted path, navigate all but
the last segment from the root, read the final attribute's current value,
require a `lambda` expression (anything else raises `ValueError`), evaluate
it on the current value and set the new value.  `evalFn` stands for
Python's `eval` of the lambda followed by its application. -/
def apply_variable_override (evalFn : String → PyObj → Option PyObj)
    (root : PyObj) (variable_path expression : String) : Except OvError PyObj :=
  let pathParts := splitDot variable_path
  let attrName := pathParts.getLastD ""
  match navigatePath root pathParts.dropLast with
  | none => .error (.pathError variable_path)
  | some parent =>
      match pyGetattr parent attrName with
      | none => .error (.pathError attrName)
      | some currentValue =>
          if expression.startsWith "lambda" then
            match evalFn expression currentValue with
            | none => .error (.evalError expression)
            | some newValue =>
                match updateAtPath root pathParts.dropLast attrName newValue with
                | none => .error (.pathError variable_path)
                | some root' => .ok root'
          else .error (.unsupportedExpr expression)

/-- `TextArenaGameMaster._apply_variable_overrides` (master.py lines
158-192): apply each configured override in order; a failure is logged
(collected on the right) and that one override is skipped, the loop
continues with the remaining overrides. -/
def apply_variable_overrides (evalFn : String → PyObj → Option PyObj)
    (root : PyObj) (override_variables : List (String × String)) :
    PyObj × List OvError :=
  override_variables.foldl
    (fun acc ov =>
      match apply_variable_override evalFn acc.1 ov.1 ov.2 with
      | .ok r => (r, acc.2)
      | .error e => (acc.1, acc.2 ++ [e]))
    (root, [])

/-! ## Helper lemmas -/

theorem strFoldlAppend (l : List String) (c : String) :
    l.foldl (· ++ ·) c = c ++ l.foldl (· ++ ·) "" := by
  induction l generalizing c with
  | nil => simp [String.append_empty]
  | cons a l ih =>
      rw [List.foldl_cons, List.foldl_cons, ih, ih ("" ++ a), String.empty_append,
        String.append_assoc]

theorem strJoinCons (a : String) (l : List String) :
    String.join (a :: l) = a ++ String.join l := by
  show (a :: l).foldl (· ++ ·) "" = a ++ l.foldl (· ++ ·) ""
  rw [List.foldl_cons, strFoldlAppend, String.empty_append]

theorem foldlContentEq (rm : Int → Option String) (pid : Int) (l : List Frag) (c : String) :
    l.foldl
        (fun acc f =>
          if f.sender = pid then acc
          else acc ++ "\n[" ++ senderName rm f.sender ++ "] " ++ f.text) c
      = c ++ String.join ((l.filter (fun f => f.sender != pid)).map (fragLine rm)) := by
  induction l generalizing c with
  | nil => simp [String.join, String.append_empty]
  | cons f l ih =>
      rw [List.foldl_cons]
      by_cases h : f.sender = pid
      · rw [if_pos h, ih, List.filter_cons_of_neg (by simp [h])]
      · rw [if_neg h, ih, List.filter_cons_of_pos (by simpa [bne_iff_ne] using h),
          List.map_cons, strJoinCons]
        simp [fragLine, String.append_assoc]

theorem convert_role (s : WrapperState) (pid : Int) :
    (convert_obs_to_context s pid).1.role = "user" := by
  unfold convert_obs_to_context
  cases s.temp pid <;> rfl

theorem convert_content (s : WrapperState) (pid : Int) :
    (convert_obs_to_context s pid).1.content
      = (if s.isInitial pid then STANDARD_GAME_PROMPT ++ "\n\n" else "")
          ++ String.join ((((s.temp pid).getD []).filter (fun f => f.sender != pid)).map
              (fragLine s.roleMapping)) := by
  unfold convert_obs_to_context
  cases h : s.temp pid with
  | none => simp [h, String.join, String.append_empty]
  | some frags => simp [h, foldlContentEq]

theorem observation_isInitial (s : WrapperState) (pid : Int) (o : ObsArg) :
    (observation s pid o).2.isInitial = s.isInitial := by
  have hc : ∀ (t : WrapperState) (q : Int),
      (convert_obs_to_context t q).2.isInitial = t.isInitial := by
    intro t q
    unfold convert_obs_to_context
    cases t.temp q <;> rfl
  cases o with
  | noObs => rw [observation, hc]
  | strObs t => rw [observation, hc]
  | listObs l =>
      rw [observation]
      dsimp only
      split <;> rw [hc]

theorem systemStep_isInitial (s : WrapperState) (pid q : Int) (o : ObsArg) :
    (systemStep s pid o).2.isInitial q = if q = pid then false else s.isInitial q := by
  show (if q = pid then false else (observation s pid o).2.isInitial q) = _
  rw [observation_isInitial]

theorem runTrace_isInitial (ops : List (Int × ObsArg)) (s : WrapperState) (pid : Int) :
    (runTrace s ops).isInitial pid
      = (s.isInitial pid && ops.all (fun op => op.1 != pid)) := by
  induction ops generalizing s with
  | nil => simp [runTrace]
  | cons op ops ih =>
      have h1 : runTrace s (op :: ops) = runTrace (systemStep s op.1 op.2).2 ops := rfl
      rw [h1, ih, systemStep_isInitial, List.all_cons]
      by_cases h : pid = op.1
      · simp [h]
      · have : (op.1 != pid) = true := by simpa [bne_iff_ne] using (Ne.symm h)
        simp [h, this]

theorem observation_temp_self (s : WrapperState) (pid : Int) (o : ObsArg) :
    (observation s pid o).2.temp pid = some [] := by
  have hc : ∀ (t : WrapperState) (q : Int),
      (convert_obs_to_context t q).2.temp q = some [] := by
    intro t q
    unfold convert_obs_to_context
    cases t.temp q <;> simp
  cases o <;> simp only [observation] <;> exact hc _ _

theorem systemStep_temp_self (s : WrapperState) (pid : Int) (o : ObsArg) :
    (systemStep s pid o).2.temp pid = some [] :=
  observation_temp_self s pid o

theorem systemStep_isInitial_self (s : WrapperState) (pid : Int) (o : ObsArg) :
    (systemStep s pid o).2.isInitial pid = false := by
  rw [systemStep_isInitial]
  simp

theorem secondCallEmpty (s : WrapperState) (q : Int) :
    ((systemStep (systemStep s q ObsArg.noObs).2 q ObsArg.noObs).1).content = "" := by
  have h1 : (systemStep (systemStep s q ObsArg.noObs).2 q ObsArg.noObs).1
      = (convert_obs_to_context
          { (systemStep s q ObsArg.noObs).2 with requestViolation := false } q).1 := rfl
  rw [h1, convert_content]
  have ht : ({ (systemStep s q ObsArg.noObs).2 with requestViolation := false } :
      WrapperState).temp q = some [] := systemStep_temp_self s q ObsArg.noObs
  have hi : ({ (systemStep s q ObsArg.noObs).2 with requestViolation := false } :
      WrapperState).isInitial q = false := systemStep_isInitial_self s q ObsArg.noObs
  rw [ht, hi]
  simp [String.join]

theorem check_move_validity_spec (s : MasterState) (pid : Int) :
    ((check_move_validity s pid).1
        = ((s.observations pid).drop (s.checked pid)).any (fun f => containsMarker f.text))
  ∧ ((check_move_validity s pid).2.observations = s.observations)
  ∧ ((check_move_validity s pid).2.checked
        = fun q => if q = pid then (s.observations pid).length else s.checked q)
  ∧ ((check_move_validity s pid).2.requestViolation = s.requestViolation)
  ∧ ((check_move_validity s pid).2.violations
        = s.violations + (if (check_move_validity s pid).1 then 1 else 0)) := by
  unfold check_move_validity
  cases hf : ((s.observations pid).drop (s.checked pid)).find?
      (fun f => containsMarker f.text) with
  | none =>
      have : ((s.observations pid).drop (s.checked pid)).any
          (fun f => containsMarker f.text) = false := by
        rw [List.any_eq_false]
        intro f hmem
        exact fun hp => (List.find?_eq_none.mp hf f hmem) hp
      simp [hf, this]
  | some f =>
      have hp : containsMarker f.text = true :=
        @List.find?_some _ (fun f => containsMarker f.text) f _ hf
      have hm : f ∈ (s.observations pid).drop (s.checked pid) :=
        @List.mem_of_find?_eq_some _ (fun f => containsMarker f.text) f _ hf
      have : ((s.observations pid).drop (s.checked pid)).any
          (fun f => containsMarker f.text) = true :=
        List.any_eq_true.mpr ⟨f, hm, hp⟩
      simp [hf, this]

/-! ## Claim theorems -/

/-- C1: at every step at which the environment reports the episode not
done, a round boundary is declared if and only if every non-GM player id
is present in the round's acted-set and the `requestViolation` flag is
false; declaring the boundary clears the acted-set and emits exactly one
round-advance notification (`log_next_round`) to the logging collaborator,
and no boundary is ever declared while `requestViolation` is true.  The
code's condition `len(played_in_turn) == len(self.players_by_id) - 1` is
shown equivalent to containment of all non-GM ids, given that only ids of
registered non-GM players are ever added to the acted-set. -/
theorem round_boundary_iff_all_nonGM_acted_and_no_violation
    (playersById : Finset Int) (s : RoundState)
    (hGM : (-1 : Int) ∈ playersById)
    (hSub : s.playedInTurn ⊆ playersById.erase (-1)) :
    (roundBoundaryCheck playersById s =
       if playersById.erase (-1) ⊆ s.playedInTurn ∧ s.requestViolation = false
       then { s with playedInTurn := ∅, nextRoundLogs := s.nextRoundLogs + 1 }
       else s)
  ∧ (s.requestViolation = true → roundBoundaryCheck playersById s = s) := by
  have key : s.playedInTurn.card = playersById.card - 1
      ↔ playersById.erase (-1) ⊆ s.playedInTurn := by
    constructor
    · intro h
      have hc : (playersById.erase (-1)).card = playersById.card - 1 :=
        Finset.card_erase_of_mem hGM
      have he : s.playedInTurn = playersById.erase (-1) :=
        Finset.eq_of_subset_of_card_le hSub (by rw [hc, h])
      rw [he]
    · intro h
      have he : s.playedInTurn = playersById.erase (-1) :=
        Finset.Subset.antisymm hSub h
      rw [he, Finset.card_erase_of_mem hGM]
  constructor
  · show (if s.playedInTurn.card = playersById.card - 1 ∧ s.requestViolation = false
        then _ else _) = _
    exact if_congr (and_congr_left fun _ => key) rfl rfl
  · intro hv
    unfold roundBoundaryCheck
    rw [if_neg]
    simp [hv]

/-- Witness for C1: a GM plus two players, both having acted, no
violation: the boundary is declared, the set cleared and one round advance
logged. -/
theorem round_boundary_check_witness :
    (roundBoundaryCheck {-1, 0, 1} ⟨{0, 1}, false, 0⟩ =
       if ({-1, 0, 1} : Finset Int).erase (-1) ⊆ ({0, 1} : Finset Int) ∧ (false = false)
       then ⟨∅, false, 0 + 1⟩ else ⟨{0, 1}, false, 0⟩)
  ∧ ((false : Bool) = true →
      roundBoundaryCheck {-1, 0, 1} ⟨{0, 1}, false, 0⟩ = ⟨{0, 1}, false, 0⟩) :=
  round_boundary_iff_all_nonGM_acted_and_no_violation {-1, 0, 1} ⟨{0, 1}, false, 0⟩
    (by decide) (by decide)

/-- C2: obtaining the merged context drains the player's buffer — a second
context production with no intervening observation yields empty text — and
asking for the context of a player id that never received any fragment
returns the context consisting of the fixed standard preamble only,
tagged "user", without any error. -/
theorem merged_context_drain_and_fresh_id (s : WrapperState) (pid : Int)
    (hTemp : s.temp pid = none) (hInit : s.isInitial pid = true) :
    (convert_obs_to_context s pid).1 = ⟨"user", STANDARD_GAME_PROMPT ++ "\n\n"⟩
  ∧ ∀ (s2 : WrapperState) (q : Int),
      ((systemStep (systemStep s2 q ObsArg.noObs).2 q ObsArg.noObs).1).content = "" := by
  refine ⟨?_, fun s2 q => secondCallEmpty s2 q⟩
  have h1 := convert_role s pid
  have h2 := convert_content s pid
  rw [hTemp, hInit] at h2
  simp only [Option.getD, List.filter_nil, List.map_nil, if_true] at h2
  calc (convert_obs_to_context s pid).1
      = ⟨(convert_obs_to_context s pid).1.role,
         (convert_obs_to_context s pid).1.content⟩ := rfl
    _ = ⟨"user", STANDARD_GAME_PROMPT ++ "\n\n"⟩ := by
        rw [h1, h2]
        simp [String.join, String.append_empty]

/-- Witness for C2: the freshly constructed wrapper, player id 0. -/
theorem merged_context_drain_and_fresh_id_witness :
    (convert_obs_to_context (initWrapper fun _ => none) 0).1
        = ⟨"user", STANDARD_GAME_PROMPT ++ "\n\n"⟩
  ∧ ∀ (s2 : WrapperState) (q : Int),
      ((systemStep (systemStep s2 q ObsArg.noObs).2 q ObsArg.noObs).1).content = "" :=
  merged_context_drain_and_fresh_id (initWrapper fun _ => none) 0 rfl rfl

/-- C3: every merged context is tagged with role "user"; its text is the
buffered fragments rendered as bracketed-sender lines in exactly the
recorded order with precisely the player's own fragments skipped (a filter
followed by a map — no reordering, no deduplication), prepended with the
fixed standard preamble exactly when the player's `_is_initial_call` flag
is still set; and over any trace of exchanges from the initial state that
flag is set exactly when no context was ever produced for that player. -/
theorem merged_context_structure_and_preamble_firstness :
    (∀ (s : WrapperState) (pid : Int),
        (convert_obs_to_context s pid).1.role = "user"
      ∧ (convert_obs_to_context s pid).1.content
          = (if s.isInitial pid then STANDARD_GAME_PROMPT ++ "\n\n" else "")
              ++ String.join ((((s.temp pid).getD []).filter (fun f => f.sender != pid)).map
                  (fragLine s.roleMapping)))
  ∧ (∀ (rm : Int → Option String) (ops : List (Int × ObsArg)) (pid : Int),
        (runTrace (initWrapper rm) ops).isInitial pid = true ↔ ∀ op ∈ ops, op.1 ≠ pid) := by
  refine ⟨fun s pid => ⟨convert_role s pid, convert_content s pid⟩, fun rm ops pid => ?_⟩
  rw [runTrace_isInitial]
  simp [initWrapper, List.all_eq_true, bne_iff_ne]

/-- C4: after `step`'s violation update, the `requestViolation` flag is
true exactly when some observation fragment appended past the per-player
high-water mark contains the invalid-move marker; the counter is signalled
exactly once per detection; the mark is bumped to the full buffer length,
so an immediate re-check detects nothing and counts nothing (already-seen
fragments are never re-scanned); and the result is independent of the
incoming flag value (the reset at the start of the turn). -/
theorem request_violation_highwater_detection (s : MasterState) (pid : Int) :
    ((stepViolationUpdate s pid).requestViolation = true ↔
       ∃ f ∈ (s.observations pid).drop (s.checked pid), containsMarker f.text = true)
  ∧ ((stepViolationUpdate s pid).violations
       = s.violations + (if (stepViolationUpdate s pid).requestViolation then 1 else 0))
  ∧ ((stepViolationUpdate s pid).checked pid = (s.observations pid).length)
  ∧ ((stepViolationUpdate (stepViolationUpdate s pid) pid).requestViolation = false
       ∧ (stepViolationUpdate (stepViolationUpdate s pid) pid).violations
           = (stepViolationUpdate s pid).violations)
  ∧ (∀ b : Bool, stepViolationUpdate { s with requestViolation := b } pid
       = stepViolationUpdate s pid) := by
  have main : ∀ (t : MasterState),
      ((stepViolationUpdate t pid).requestViolation
          = ((t.observations pid).drop (t.checked pid)).any (fun f => containsMarker f.text))
    ∧ ((stepViolationUpdate t pid).observations = t.observations)
    ∧ ((stepViolationUpdate t pid).checked
          = fun q => if q = pid then (t.observations pid).length else t.checked q)
    ∧ ((stepViolationUpdate t pid).violations
          = t.violations + (if (stepViolationUpdate t pid).requestViolation then 1 else 0)) := by
    intro t
    obtain ⟨h1, h2, h3, _, h5⟩ :=
      check_move_validity_spec { t with requestViolation := false } pid
    exact ⟨h1, h2, h3, h5⟩
  obtain ⟨m1, m2, m3, m4⟩ := main s
  refine ⟨?_, m4, ?_, ?_, fun b => rfl⟩
  · rw [m1]
    exact List.any_eq_true
  · rw [m3]
    simp
  · obtain ⟨n1, n2, n3, n4⟩ := main (stepViolationUpdate s pid)
    have hdrop : (((stepViolationUpdate s pid).observations pid).drop
        ((stepViolationUpdate s pid).checked pid)) = [] := by
      rw [m2, m3]
      simp
    have hrv : (stepViolationUpdate (stepViolationUpdate s pid) pid).requestViolation
        = false := by
      rw [n1, hdrop]
      rfl
    refine ⟨hrv, ?_⟩
    rw [n4, hrv]
    simp

theorem prepare_metrics_fractional (r : ℚ) (h0 : r ≠ 0) (hm : r ≠ -1) (hp : r ≠ 1) :
    prepare_metrics (some r) = init_metrics := by
  unfold prepare_metrics pyTruthy
  have hb : (r != 0) = true := by simpa [bne_iff_ne] using h0
  simp only [hb, if_true]
  rw [if_neg hm, if_neg hp]

/-- Counterexample for C5 as stated: the single-player decoder leaves the
bench score at its NaN default in every case, so reward `1` does not yield
`benchScore = 100` and reward `2/5` does not yield `benchScore = 40`. -/
theorem single_player_bench_score_counterexample :
    (prepare_metrics (some 1)).benchScore = none
  ∧ (prepare_metrics (some 1)).benchScore ≠ some 100
  ∧ (prepare_metrics (some (2/5))).benchScore = none
  ∧ (prepare_metrics (some (2/5))).benchScore ≠ some 40 := by
  have h25 := prepare_metrics_fractional (2/5) (by norm_num) (by norm_num) (by norm_num)
  refine ⟨by decide, by decide, ?_, ?_⟩ <;> rw [h25] <;> simp [init_metrics]

/-- C5 amended: reward `1` yields `{aborted 0, success 1, lose 0}`, reward
`-1` yields `{aborted 1, success 0, lose 1}`, and any other reward in
`(-1, 1)` yields the all-zero default — and in every case the bench score
is left at its NaN default (`none`), never set to `100` or `reward × 100`. -/
theorem single_player_metrics_amended (r : ℚ) (h1 : -1 < r) (h2 : r < 1) :
    prepare_metrics (some 1) = { aborted := 0, success := 1, lose := 0, benchScore := none }
  ∧ prepare_metrics (some (-1)) = { aborted := 1, success := 0, lose := 1, benchScore := none }
  ∧ prepare_metrics (some r) = init_metrics := by
  refine ⟨by decide, by decide, ?_⟩
  by_cases h0 : r = 0
  · rw [h0]
    decide
  · exact prepare_metrics_fractional r h0
      (fun h => by rw [h] at h1; exact absurd h1 (lt_irrefl _))
      (fun h => by rw [h] at h2; exact absurd h2 (lt_irrefl _))

/-- Witness for C5 amended at the fractional reward `2/5` (the claim's
`0.4` example). -/
theorem single_player_metrics_amended_witness :
    prepare_metrics (some 1) = { aborted := 0, success := 1, lose := 0, benchScore := none }
  ∧ prepare_metrics (some (-1)) = { aborted := 1, success := 0, lose := 1, benchScore := none }
  ∧ prepare_metrics (some (2/5)) = init_metrics :=
  single_player_metrics_amended (2/5) (by norm_num) (by norm_num)

/-- C9: a numeric reward of exactly `0` is falsy, so the decoder returns
the same default vector as receiving no reward at all; in particular the
bench score stays NaN and is not set to `0`. -/
theorem zero_reward_equals_absent_reward :
    prepare_metrics (some 0) = prepare_metrics none
  ∧ prepare_metrics (some 0) = init_metrics
  ∧ (prepare_metrics (some 0)).benchScore = none
  ∧ (prepare_metrics (some 0)).benchScore ≠ some 0 := by decide

/-- Counterexample for C6 as stated: at start length 4 and end length 12
the word-chains decoder logs no bench-score entry at all, in particular
not the claimed `min(1, 12/20) × 100 = 60`. -/
theorem word_chains_bench_score_counterexample :
    (word_chains_log_success 4 12).lookup BENCH_SCORE = none := by decide

/-- C6 amended: a zero length delta logs `{aborted 1, success 0, lose 1}`,
a nonzero delta logs `{aborted 0, success 1, lose 0}`, and the decoder
never logs any bench score (it is left undefined). -/
theorem word_chains_metrics_amended (startWordLength endWordLength : Nat) :
    (endWordLength = startWordLength →
       word_chains_log_success startWordLength endWordLength
         = [(METRIC_ABORTED, 1), (METRIC_SUCCESS, 0), (METRIC_LOSE, 1)])
  ∧ (endWordLength ≠ startWordLength →
       word_chains_log_success startWordLength endWordLength
         = [(METRIC_ABORTED, 0), (METRIC_SUCCESS, 1), (METRIC_LOSE, 0)])
  ∧ (word_chains_log_success startWordLength endWordLength).lookup BENCH_SCORE = none := by
  unfold word_chains_log_success
  refine ⟨fun h => ?_, fun h => ?_, ?_⟩
  · rw [if_pos (by omega)]
  · rw [if_neg (by omega)]
  · by_cases h : (endWordLength : Int) - (startWordLength : Int) = 0
    · rw [if_pos h]
      decide
    · rw [if_neg h]
      decide

/-- Counterexample for C7 as stated: with `lastMoveInvalid = false` the
two-player decoder logs no bench score at all, in particular not the mean
of the players' success indicators. -/
theorem two_player_bench_score_counterexample :
    (two_player_log_success false).lookup BENCH_SCORE = none := by decide

/-- C7 amended: `lastMoveInvalid = true` logs
`{aborted 1, success 0, lose 1}`, otherwise `{aborted 0, success 1,
lose 0}`; in neither case does the decoder log a bench score. -/
theorem two_player_metrics_amended :
    two_player_log_success true = [(METRIC_ABORTED, 1), (METRIC_SUCCESS, 0), (METRIC_LOSE, 1)]
  ∧ two_player_log_success false = [(METRIC_ABORTED, 0), (METRIC_SUCCESS, 1), (METRIC_LOSE, 0)]
  ∧ (two_player_log_success true).lookup BENCH_SCORE = none
  ∧ (two_player_log_success false).lookup BENCH_SCORE = none := by decide

/-- C10: the scorer replaces the recorded bench score by NaN exactly when
the recorded aborted value is nonzero, passes it through unchanged
otherwise, and always passes success, aborted and lose through unchanged. -/
theorem episode_scores_nan_on_aborted (episode_interactions : String → Option ℚ)
    (a b sc lo : ℚ)
    (hA : episode_interactions METRIC_ABORTED = some a)
    (hB : episode_interactions BENCH_SCORE = some b)
    (hS : episode_interactions METRIC_SUCCESS = some sc)
    (hL : episode_interactions METRIC_LOSE = some lo) :
    compute_episode_scores episode_interactions
      = [(BENCH_SCORE, if a = 0 then some b else none),
         (METRIC_SUCCESS, some sc), (METRIC_ABORTED, some a), (METRIC_LOSE, some lo)] := by
  unfold compute_episode_scores
  rw [hA, hB, hS, hL]
  simp only [Option.getD_some]
  by_cases h : a = 0
  · rw [if_neg (not_not_intro h), if_pos h]
    rfl
  · rw [if_pos h, if_neg h]
    rfl

/-- Witness for C10: an aborted episode with a recorded bench score of 55
gets NaN as its episode bench score. -/
theorem episode_scores_nan_on_aborted_witness :
    compute_episode_scores
        (fun k =>
          if k = METRIC_ABORTED then some 1
          else if k = BENCH_SCORE then some 55
          else if k = METRIC_SUCCESS then some 0
          else if k = METRIC_LOSE then some 1 else none)
      = [(BENCH_SCORE, if (1 : ℚ) = 0 then some 55 else none),
         (METRIC_SUCCESS, some 0), (METRIC_ABORTED, some 1), (METRIC_LOSE, some 1)] :=
  episode_scores_nan_on_aborted _ 1 55 0 1 (by decide) (by decide) (by decide) (by decide)

theorem apply_overrides_acc (evalFn : String → PyObj → Option PyObj)
    (l : List (String × String)) (g : PyObj) (errs : List OvError) :
    l.foldl
        (fun acc ov =>
          match apply_variable_override evalFn acc.1 ov.1 ov.2 with
          | .ok r => (r, acc.2)
          | .error e => (acc.1, acc.2 ++ [e]))
        (g, errs)
      = ((apply_variable_overrides evalFn g l).1,
         errs ++ (apply_variable_overrides evalFn g l).2) := by
  induction l generalizing g errs with
  | nil => simp [apply_variable_overrides]
  | cons ov l ih =>
      simp only [apply_variable_overrides, List.foldl_cons]
      cases hov : apply_variable_override evalFn g ov.1 ov.2 with
      | ok r =>
          simp only [hov]
          rw [ih r errs, ih r []]
          simp
      | error e =>
          simp only [hov, List.nil_append]
          rw [ih g (errs ++ [e]), ih g [e]]
          simp

/-- C8: a failing override — one whose dotted path has an unresolvable
segment, or whose transform expression is not a lambda — contributes
exactly one logged error and is skipped: the object graph is exactly what
processing the overrides before and after it alone produces, so every
remaining override is still attempted and setup proceeds (the fold is
total; no override failure aborts it). -/
theorem override_failure_skipped_and_logged (evalFn : String → PyObj → Option PyObj)
    (root : PyObj) (xs ys : List (String × String)) (p e : String) (err : OvError)
    (hFail : apply_variable_override evalFn
        (apply_variable_overrides evalFn root xs).1 p e = .error err) :
    (apply_variable_overrides evalFn root (xs ++ (p, e) :: ys)
        = ((apply_variable_overrides evalFn
              (apply_variable_overrides evalFn root xs).1 ys).1,
           (apply_variable_overrides evalFn root xs).2
             ++ err :: (apply_variable_overrides evalFn
                  (apply_variable_overrides evalFn root xs).1 ys).2))
  ∧ (∀ (g : PyObj) (path ex : String),
        ¬ ex.startsWith "lambda" = true →
          ∃ msg, apply_variable_override evalFn g path ex = .error msg)
  ∧ (∀ (g : PyObj) (path ex : String),
        navigatePath g (splitDot path).dropLast = none →
          ∃ msg, apply_variable_override evalFn g path ex = .error msg) := by
  refine ⟨?_, ?_, ?_⟩
  · show (xs ++ (p, e) :: ys).foldl _ (root, []) = _
    rw [List.foldl_append, List.foldl_cons]
    have hxs : xs.foldl
        (fun acc ov =>
          match apply_variable_override evalFn acc.1 ov.1 ov.2 with
          | .ok r => (r, acc.2)
          | .error e => (acc.1, acc.2 ++ [e]))
        (root, []) = ((apply_variable_overrides evalFn root xs).1,
          (apply_variable_overrides evalFn root xs).2) := by
      have := apply_overrides_acc evalFn xs root []
      simpa using this
    rw [hxs]
    simp only [hFail]
    rw [apply_overrides_acc]
    simp
  · intro g path ex h
    simp only [apply_variable_override]
    cases hn : navigatePath g (splitDot path).dropLast with
    | none =>
        simp only [hn]
        exact ⟨_, rfl⟩
    | some parent =>
        simp only [hn]
        cases hg : pyGetattr parent ((splitDot path).getLastD "") with
        | none =>
            simp only [hg]
            exact ⟨_, rfl⟩
        | some cur =>
            simp only [hg]
            rw [if_neg h]
            exact ⟨_, rfl⟩
  · intro g path ex hn
    simp only [apply_variable_override, hn]
    exact ⟨_, rfl⟩

/-- Witness for C8: overriding the unresolvable path `env.missing.x` fails
with a path error that is logged, while the following override on
`env.word_list` is still processed. -/
theorem override_failure_skipped_and_logged_witness :
    (apply_variable_overrides (fun _ v => some v)
        (PyObj.node [("env", PyObj.node [("word_list", PyObj.leaf 0)])])
        ([] ++ ("env.missing.x", "lambda x: x") :: [("env.word_list", "lambda x: x")])
      = ((apply_variable_overrides (fun _ v => some v)
            (apply_variable_overrides (fun _ v => some v)
              (PyObj.node [("env", PyObj.node [("word_list", PyObj.leaf 0)])]) []).1
            [("env.word_list", "lambda x: x")]).1,
         (apply_variable_overrides (fun _ v => some v)
            (PyObj.node [("env", PyObj.node [("word_list", PyObj.leaf 0)])]) []).2
           ++ OvError.pathError "env.missing.x"
              :: (apply_variable_overrides (fun _ v => some v)
                    (apply_variable_overrides (fun _ v => some v)
                      (PyObj.node [("env", PyObj.node [("word_list", PyObj.leaf 0)])]) []).1
                    [("env.word_list", "lambda x: x")]).2))
  ∧ (∀ (g : PyObj) (path ex : String),
        ¬ ex.startsWith "lambda" = true →
          ∃ msg, apply_variable_override (fun _ v => some v) g path ex = .error msg)
  ∧ (∀ (g : PyObj) (path ex : String),
        navigatePath g (splitDot path).dropLast = none →
          ∃ msg, apply_variable_override (fun _ v => some v) g path ex = .error msg) :=
  override_failure_skipped_and_logged _ _ [] [("env.word_list", "lambda x: x")]
    "env.missing.x" "lambda x: x" (OvError.pathError "env.missing.x") rfl
